import Mathlib

/-!
# Verification of the Drishti request-orchestration pipeline

Shallow embedding of the core decision logic of the Drishti backend:
the model router (`backend/services/llm/router.py`), the document chunker
and keyword retriever (`backend/services/documents/parsers.py`,
`backend/services/documents/document_store.py`), the unified LLM client
(`backend/services/llm/local_llm_client.py`), the Memori wrapper
(`backend/services/memory/memori_client.py`) and the chat/translate
HTTP handlers (`backend/api/routes_chat.py`, `backend/api/routes_translate.py`).

Python strings are modelled as `List Char` (one element per code point, so
`List.length` matches Python `len`), mutable collections as functional state
threaded through the handlers, fallible external collaborators (Mongo, the
two model backends, Whisper STT, Parler TTS, langdetect) as `Except`-valued
parameters, and the unbounded `while` loop of the chunker by explicit fuel.
-/

set_option maxRecDepth 100000

namespace Drishti

/-- Python `str.lower()` restricted to the ASCII mapping of `Char.toLower`
(the keyword set and language codes in the source are ASCII, where the two
agree). -/
def lowerL (s : List Char) : List Char := s.map Char.toLower

/-- `leadsWith needle hay` is Python `hay.startswith(needle)`. -/
def leadsWith : List Char → List Char → Bool
  | [], _ => true
  | _ :: _, [] => false
  | a :: as, b :: bs => a == b && leadsWith as bs

/-- `containsSub hay needle` is Python `needle in hay` (plain substring test). -/
def containsSub (hay needle : List Char) : Bool :=
  leadsWith needle hay ||
    match hay with
    | [] => false
    | _ :: t => containsSub t needle

/-- `INDIC_LANGS` from `router.py`: the ten supported regional language codes. -/
def INDIC_LANGS : List String :=
  ["hi", "bn", "mr", "ta", "te", "gu", "kn", "ml", "or", "pa"]

/-- `HEAVY_KEYWORDS` from `router.py`. -/
def HEAVY_KEYWORDS : List (List Char) :=
  ["step by step".data, "detailed".data, "detail".data, "explain".data,
   "code".data, "algorithm".data, "complex".data, "advanced".data]

/-- `choose_model` from `router.py`: decide between the light model
(`"light"`, Sarvam-1) and the heavy model (`"heavy"`, Llama 3.1 8B). -/
def choose_model (user_text : List Char) (lang_code : String) : String :=
  let text_lower := lowerL user_text
  if user_text.length > 300 then "heavy"
  else if HEAVY_KEYWORDS.any (fun kw => containsSub text_lower kw) then "heavy"
  else if INDIC_LANGS.contains lang_code && user_text.length ≤ 300 then "light"
  else "heavy"

/-- Normalize a Python slice / `str.rfind` bound for a string of length `n`:
negative indices count from the end (clamped at 0), positive ones are clamped
at `n`. -/
def pyNorm (n : Nat) (i : Int) : Nat :=
  if i < 0 then ((n : Int) + i).toNat else min i.toNat n

/-- Python `s[a:b]` on a `List Char`. -/
def pySlice (s : List Char) (a b : Int) : List Char :=
  let i := pyNorm s.length a
  let j := pyNorm s.length b
  (s.drop i).take (j - i)

/-- Does `sub` occur in `s` starting at absolute position `p`? -/
def matchesAt (s sub : List Char) (p : Nat) : Bool :=
  (s.drop p).take sub.length == sub

/-- Python `s.rfind(sub, a, b)`: the greatest absolute position `p` with
`a ≤ p`, `p + len(sub) ≤ b` (both bounds normalized) and `sub` occurring at
`p`; `none` plays the role of Python's `-1`. -/
def pyRfind (s sub : List Char) (a b : Int) : Option Nat :=
  let i := pyNorm s.length a
  let j := pyNorm s.length b
  ((List.range' i (j - i)).reverse).find?
    (fun p => p + sub.length ≤ j && matchesAt s sub p)

/-- Python `s.strip()` (default whitespace strip). -/
def pyStrip (s : List Char) : List Char :=
  (s.dropWhile Char.isWhitespace).reverse.dropWhile Char.isWhitespace |>.reverse

/-- `boundary_chars` from `chunk_text` in `parsers.py`. -/
def boundary_chars : List (List Char) :=
  [". ".data, "? ".data, "! ".data, "\n\n".data]

/-- The sentence-boundary search inside `chunk_text`'s loop body: walk
`boundary_chars` in order; on the first delimiter whose rightmost occurrence
`pos` (Python `-1` when absent) satisfies `pos > start + chunk_size // 2`,
the window ends at `pos + len(delim)`; otherwise it stays at `e0`. -/
def findBreak (text : List Char) (chunkSize : Nat) (start e0 : Int) :
    List (List Char) → Int
  | [] => e0
  | cs :: rest =>
    let pos : Int := match pyRfind text cs start e0 with
      | some p => (p : Int)
      | none => -1
    if pos > start + ((chunkSize / 2 : Nat) : Int) then pos + cs.length
    else findBreak text chunkSize start e0 rest

/-- The `while start < text_length` loop of `chunk_text` (`parsers.py`),
with explicit fuel standing for the number of iterations still allowed:
`none` means the fuel ran out before the loop exited. The cursor is an `Int`
because Python's `end - overlap` can go negative. -/
def chunkLoop (text : List Char) (chunkSize overlap : Nat) :
    Nat → Int → List (List Char) → Option (List (List Char))
  | 0, start, acc => if start < (text.length : Int) then none else some acc
  | fuel + 1, start, acc =>
    if start < (text.length : Int) then
      let e0 : Int := start + (chunkSize : Int)
      let e : Int :=
        if e0 < (text.length : Int) then findBreak text chunkSize start e0 boundary_chars
        else e0
      let chunk := pyStrip (pySlice text start e)
      let acc' := if chunk ≠ [] then acc ++ [chunk] else acc
      let start' : Int :=
        if e < (text.length : Int) then e - (overlap : Int) else (text.length : Int)
      chunkLoop text chunkSize overlap fuel start' acc'
    else some acc

/-- `chunk_text` from `parsers.py`, run with `text.length + 1` iterations of
fuel (enough whenever the cursor makes progress every round). -/
def chunk_text (text : List Char) (chunkSize : Nat) (overlap : Nat := 128) :
    Option (List (List Char)) :=
  if text = [] then some []
  else chunkLoop text chunkSize overlap (text.length + 1) 0 []

/-- Split a string on runs of whitespace, Python `str.split()`. -/
def splitWords : List Char → List Char → List (List Char)
  | [], acc => if acc = [] then [] else [acc.reverse]
  | c :: rest, acc =>
    if c.isWhitespace then
      if acc = [] then splitWords rest [] else acc.reverse :: splitWords rest []
    else splitWords rest (c :: acc)

/-- Regular expressions over the fragment MongoDB's `$regex` can receive from
`get_relevant_chunks` (literals, `.`, and the `?`/`*`/`+`/`|` operators). -/
inductive Regex where
  | never : Regex
  | eps : Regex
  | char : Char → Regex
  | any : Regex
  | seq : Regex → Regex → Regex
  | alt : Regex → Regex → Regex
  | star : Regex → Regex
deriving DecidableEq, Repr

/-- Does the regex accept the empty string? -/
def Regex.nullable : Regex → Bool
  | .never => false
  | .eps => true
  | .char _ => false
  | .any => false
  | .seq r₁ r₂ => r₁.nullable && r₂.nullable
  | .alt r₁ r₂ => r₁.nullable || r₂.nullable
  | .star _ => true

/-- Brzozowski derivative of a regex by one character. -/
def Regex.deriv : Regex → Char → Regex
  | .never, _ => .never
  | .eps, _ => .never
  | .char c, a => if a == c then .eps else .never
  | .any, _ => .eps
  | .seq r₁ r₂, a =>
    if r₁.nullable then .alt (.seq (r₁.deriv a) r₂) (r₂.deriv a)
    else .seq (r₁.deriv a) r₂
  | .alt r₁ r₂, a => .alt (r₁.deriv a) (r₂.deriv a)
  | .star r, a => .seq (r.deriv a) (.star r)

/-- Whole-string match via iterated derivatives. -/
def Regex.rmatch (r : Regex) (s : List Char) : Bool :=
  (s.foldl Regex.deriv r).nullable

/-- Match anywhere in the string (MongoDB `$regex` is a search, not an
anchored match): the string matches `.*r.*`. -/
def Regex.rsearch (r : Regex) (s : List Char) : Bool :=
  (Regex.seq (.star .any) (Regex.seq r (.star .any))).rmatch s

/-- PCRE metacharacters outside the modelled fragment; a pattern containing
one of them is not modelled (the embedding of the store query returns
`none` for it). -/
def regexUnmodelled : List Char := ['(', ')', '[', ']', '\x7b', '\x7d', '\\', '^', '$']

/-- Parse one `|`-free branch of a pattern into a reversed stack of atoms;
`?`, `*`, `+` quantify the previous atom (an initial quantifier is a PCRE
pattern error, modelled as `none`). -/
def parseAtoms : List Char → List Regex → Option (List Regex)
  | [], acc => some acc
  | '?' :: rest, acc =>
    match acc with
    | [] => none
    | r :: tl => parseAtoms rest (Regex.alt r .eps :: tl)
  | '*' :: rest, acc =>
    match acc with
    | [] => none
    | r :: tl => parseAtoms rest (Regex.star r :: tl)
  | '+' :: rest, acc =>
    match acc with
    | [] => none
    | r :: tl => parseAtoms rest (Regex.seq r (Regex.star r) :: tl)
  | '.' :: rest, acc => parseAtoms rest (Regex.any :: acc)
  | c :: rest, acc =>
    if regexUnmodelled.contains c then none
    else parseAtoms rest (Regex.char c :: acc)

/-- Parse one `|`-free branch into a regex. -/
def parseBranch (cs : List Char) : Option Regex :=
  (parseAtoms cs []).map (fun acc => acc.reverse.foldr Regex.seq .eps)

/-- Parse a full pattern: alternation of its `|`-separated branches (the
patterns built by `get_relevant_chunks` contain no groups, so every `|` is
top-level). -/
def parsePattern (cs : List Char) : Option Regex :=
  ((cs.splitOn '|').mapM parseBranch).map (fun rs => rs.foldr Regex.alt .never)

/-- A stored chunk document, as inserted by `save_uploaded_file`
(`document_store.py`). -/
structure ChunkRecord where
  document_id : String
  user_id : String
  text : List Char
  chunk_index : Nat
  created_at : Nat
deriving DecidableEq, Repr

/-- The keyword extraction of `get_relevant_chunks`
(`[word.lower() for word in query.split() if len(word) > 3]`). -/
def queryKeywords (query : List Char) : List (List Char) :=
  ((splitWords query []).filter (fun w => w.length > 3)).map lowerL

/-- The `$regex` pattern of `get_relevant_chunks`: the first 5 keywords
joined with `|`, compiled into the modelled regex fragment. -/
def queryRegex (query : List Char) : Option Regex :=
  parsePattern (List.intercalate ['|'] ((queryKeywords query).take 5))

/-- `get_relevant_chunks` from `document_store.py`, over an explicit chunk
store (the Mongo collection as a list in store order). Keywords are the
whitespace tokens of the query longer than 3 characters, lower-cased; with
no keywords it answers `[]` without looking at the store; otherwise the
first 5 keywords are joined with `|` into a `$regex` pattern matched
case-insensitively (the `i` option is modelled by lower-casing the text;
the keywords are already lower-case). `none` models a pattern outside the
regex fragment embedded here. -/
def get_relevant_chunks (store : List ChunkRecord) (user_id : String)
    (query : List Char) (limit : Nat) : Option (List (List Char)) :=
  if queryKeywords query = [] then some []
  else
    match queryRegex query with
    | none => none
    | some r =>
      some ((((store.filter
          (fun ch => ch.user_id == user_id && r.rsearch (lowerL ch.text))).take limit).map
            (fun ch => ch.text)))

/-- The chunk documents built by `save_uploaded_file` (`document_store.py`)
for one ingested document: `chunk_index` comes from `enumerate(chunks)`. -/
def chunk_records (document_id user_id : String) (chunks : List (List Char))
    (now : Nat) : List ChunkRecord :=
  chunks.enum.map (fun ic =>
    { document_id := document_id, user_id := user_id, text := ic.2,
      chunk_index := ic.1, created_at := now })

/-- One entry of the `messages` list handed to a backend client. -/
structure Message where
  role : String
  content : List Char
deriving DecidableEq, Repr

/-- A backend text-completion client (`LlamaClient.chat` / `SarvamClient.chat`):
either a completion or a raised error. Neither client falls back to anything. -/
def Backend : Type := List Message → Except String (List Char)

/-- `SYSTEM_PROMPT` from `local_llm_client.py`. -/
def SYSTEM_PROMPT : List Char :=
  ("You are Drishti AI, a helpful multilingual assistant supporting English and Indian languages (Hindi, Bengali, Marathi, Tamil, Telugu, Gujarati, Kannada, Malayalam, Odia, Punjabi).\n\nGuidelines:\n- Reply in the SAME LANGUAGE as the user unless they explicitly ask you to translate\n- Keep responses concise and TTS-friendly (avoid overly long paragraphs)\n- If the user asks to translate, output ONLY the translated text without explanation\n- Be helpful, accurate, and culturally aware\n- For code or technical topics, provide clear step-by-step explanations").data

/-- The result dict of `LocalLLMClient.chat`. -/
structure ChatResult where
  reply : List Char
  model_used : String
deriving DecidableEq, Repr

/-- The message list built by `LocalLLMClient.chat`: a system turn (persona
plus optional document context) followed by the user turn. -/
def buildMessages (text context : List Char) : List Message :=
  let system_content :=
    if context ≠ [] then
      SYSTEM_PROMPT ++ "\n\nContext from uploaded documents:\n".data ++ context
    else SYSTEM_PROMPT
  [⟨"system", system_content⟩, ⟨"user", text⟩]

/-- `LocalLLMClient.chat` from `local_llm_client.py`: route with
`choose_model`, build the system+user message list, and invoke exactly the
chosen backend. -/
def llmChat (sarvam llama : Backend) (text : List Char) (lang : String)
    (context : List Char := []) : Except String ChatResult :=
  let model_choice := choose_model text lang
  let messages := buildMessages text context
  if model_choice == "light" then
    (sarvam messages).map (fun reply => ⟨reply, "sarvam-1"⟩)
  else
    (llama messages).map (fun reply => ⟨reply, "llama-3.1-8b"⟩)

/-- `LocalLLMClient.translate` from `local_llm_client.py`: single-turn
translation prompt; Sarvam whenever source or target language is Indic,
Llama otherwise (no length/keyword routing). -/
def llmTranslate (sarvam llama : Backend) (text : List Char)
    (source_lang target_lang : String) : Except String (List Char) :=
  let prompt :=
    "Translate the following text from ".data ++ source_lang.data ++ " to ".data ++
      target_lang.data ++ ".\nOutput ONLY the translated text, nothing else.\n\nText: ".data ++
      text ++ "\n\nTranslation:".data
  let messages := [⟨"user", prompt⟩]
  let indic_langs : List String :=
    ["hi", "bn", "mr", "ta", "te", "gu", "kn", "ml", "or", "pa"]
  if indic_langs.contains source_lang || indic_langs.contains target_lang then
    sarvam messages
  else llama messages

/-- A row of Memori's own `messages` collection (`memori_client.py`). -/
structure MemoriRecord where
  entity_id : String
  session_id : String
  user_message : List Char
  assistant_message : List Char
  model_used : String
deriving DecidableEq, Repr

/-- `MemoriWrapper.chat` from `memori_client.py`: call the local LLM, then
best-effort store the interaction (`storage_ok = false` models the swallowed
`insert_one` exception). An LLM error propagates with no record stored. -/
def memoriChat (sarvam llama : Backend) (storage_ok : Bool)
    (user_id session_id : String) (text : List Char) (lang : String)
    (mem : List MemoriRecord) :
    Except String (ChatResult × String) × List MemoriRecord :=
  match llmChat sarvam llama text lang with
  | .error e => (.error e, mem)
  | .ok result =>
    let mem' :=
      if storage_ok then
        mem ++ [⟨user_id, session_id, text, result.reply, result.model_used⟩]
      else mem
    (.ok (result, session_id), mem')

/-- A row of the sessions collection (`routes_chat.py`). -/
structure SessionRecord where
  session_id : String
  user_id : String
  title : List Char
  updated_at : Nat
deriving DecidableEq, Repr

/-- A row of the app's messages collection (`routes_chat.py`);
`model_used` is set only on assistant messages. -/
structure MessageRecord where
  session_id : String
  sender : String
  text : List Char
  lang : String
  model_used : Option String
  created_at : Nat
deriving DecidableEq, Repr

/-- The mutable stores a chat turn touches. -/
structure AppState where
  sessions : List SessionRecord
  messages : List MessageRecord
  memori_messages : List MemoriRecord
deriving DecidableEq, Repr

/-- The errors a handler can answer with (each an `HTTPException` or a
propagated exception in the source). -/
inductive ChatError where
  | memoriNotInitialized
  | sttError
  | retrievalError
  | modelError (e : String)
  | ttsError
deriving DecidableEq, Repr

/-- The external collaborators and ambient values of one request:
langdetect, the chunk store (or its unreachability), the two model
backends, Memori's best-effort storage, Whisper STT, Parler TTS, and the
ids/clock Mongo would generate. -/
structure ChatEnv where
  memori_initialized : Bool
  detect : List Char → Except Unit String
  chunks_store : Except Unit (List ChunkRecord)
  sarvam : Backend
  llama : Backend
  memori_storage_ok : Bool
  transcribe : List Nat → Except Unit (List Char × String)
  synthesize : List Char → String → Except Unit (List Nat)
  new_session_id : String
  now : Nat

/-- `TextChatRequest` from `routes_chat.py`. -/
structure TextChatRequest where
  user_id : String
  session_id : Option String
  text : List Char
  lang : String
deriving DecidableEq, Repr

/-- `TextChatResponse` from `routes_chat.py`. -/
structure TextChatResponse where
  user_text : List Char
  assistant_text : List Char
  lang : String
  model_used : String
  session_id : String
deriving DecidableEq, Repr

/-- `AudioChatResponse` from `routes_chat.py` (`audio_base64` kept as raw
bytes; base64 is a bijective transport encoding). -/
structure AudioChatResponse where
  user_text : List Char
  assistant_text : List Char
  lang : String
  model_used : String
  session_id : String
  audio_format : String
  audio_base64 : List Nat
deriving DecidableEq, Repr

/-- Session title as built in `routes_chat.py`:
`text[:50] + ("..." if len(text) > 50 else "")`. -/
def sessionTitle (text : List Char) : List Char :=
  text.take 50 ++ (if text.length > 50 then "...".data else [])

/-- `"\n\n".join(chunks) if chunks else ""` from both chat handlers. -/
def joinContext (chunks : List (List Char)) : List Char :=
  if chunks ≠ [] then List.intercalate "\n\n".data chunks else []

/-- The context injection of the chat handlers: append the joined chunks to
the user text inside a bracketed marker (`marker` is
`"\n\n[Context from documents: "` on the text route and `"\n\n[Context: "`
on the audio route); with empty context the text is unchanged. -/
def augmentText (marker text : List Char) (chunks : List (List Char)) : List Char :=
  let context := joinContext chunks
  if context ≠ [] then text ++ marker ++ context ++ "]".data else text

/-- The `lang == "auto"` resolution at the top of `chat_text`:
`detect` on the text, `LangDetectException` caught into `"en"`. -/
def resolveLang (detect : List Char → Except Unit String)
    (text : List Char) (lang : String) : String :=
  if lang == "auto" then
    match detect text with
    | .ok l => l
    | .error _ => "en"
  else lang

/-- The retrieval step of both chat handlers: fetch the chunk store and run
`get_relevant_chunks` on it; an unreachable store or a store error (including
a pattern Mongo rejects) is a raised exception. -/
def retrieveChunks (env : ChatEnv) (user_id : String) (text : List Char) :
    Except Unit (List (List Char)) :=
  match env.chunks_store with
  | .error e => .error e
  | .ok store =>
    match get_relevant_chunks store user_id text 5 with
    | none => .error ()
    | some cs => .ok cs

/-- Shared session get-or-create step of both chat handlers. -/
def getOrCreateSession (env : ChatEnv) (user_id : String)
    (session_id : Option String) (text : List Char) (st : AppState) :
    String × AppState :=
  match session_id with
  | some sid => (sid, st)
  | none =>
    (env.new_session_id,
     { st with sessions := st.sessions ++
        [⟨env.new_session_id, user_id, sessionTitle text, env.now⟩] })

/-- The two `insert_one` calls into the messages collection plus the
session `updated_at` bump, shared by both chat handlers. -/
def recordTurn (env : ChatEnv) (session_id : String) (user_text reply : List Char)
    (lang : String) (model_used : String) (st : AppState) : AppState :=
  let user_msg : MessageRecord := ⟨session_id, "user", user_text, lang, none, env.now⟩
  let assistant_msg : MessageRecord :=
    ⟨session_id, "assistant", reply, lang, some model_used, env.now⟩
  let st := { st with messages := st.messages ++ [user_msg, assistant_msg] }
  { st with sessions := st.sessions.map (fun s =>
      if s.session_id == session_id then { s with updated_at := env.now } else s) }

/-- The body of `chat_text` after the language has been resolved: get or
create the session, retrieve document context, append it in brackets to the
user text, run the Memori-wrapped LLM on the combined text, then record both
messages. -/
def chatTextResolved (env : ChatEnv) (req : TextChatRequest) (lang : String)
    (st : AppState) : Except ChatError TextChatResponse × AppState :=
  if !env.memori_initialized then (.error .memoriNotInitialized, st)
  else
    let (session_id, st) := getOrCreateSession env req.user_id req.session_id req.text st
    match retrieveChunks env req.user_id req.text with
    | .error _ => (.error .retrievalError, st)
    | .ok chunks =>
      let text_with_context :=
        augmentText "\n\n[Context from documents: ".data req.text chunks
      match memoriChat env.sarvam env.llama env.memori_storage_ok
          req.user_id session_id text_with_context lang st.memori_messages with
      | (.error e, mem') => (.error (.modelError e), { st with memori_messages := mem' })
      | (.ok (result, _), mem') =>
        let st := { st with memori_messages := mem' }
        let st := recordTurn env session_id req.text result.reply lang result.model_used st
        (.ok ⟨req.text, result.reply, lang, result.model_used, session_id⟩, st)

/-- `chat_text` from `routes_chat.py`: resolve `"auto"` via langdetect
(failure silently becomes `"en"`), then run the turn. -/
def chat_text (env : ChatEnv) (req : TextChatRequest) (st : AppState) :
    Except ChatError TextChatResponse × AppState :=
  chatTextResolved env req (resolveLang env.detect req.text req.lang) st

/-- `chat_audio` from `routes_chat.py`: STT first (a decode failure is an
HTTP 400 before any store is touched), then the same middle as `chat_text`
(with the shorter `[Context: …]` marker), then TTS — whose failure raises an
HTTP 500 before the messages are saved. -/
def chat_audio (env : ChatEnv) (user_id : String) (session_id : Option String)
    (audio : List Nat) (st : AppState) :
    Except ChatError AudioChatResponse × AppState :=
  if !env.memori_initialized then (.error .memoriNotInitialized, st)
  else
    match env.transcribe audio with
    | .error _ => (.error .sttError, st)
    | .ok (user_text, lang) =>
      let (session_id, st) := getOrCreateSession env user_id session_id user_text st
      match retrieveChunks env user_id user_text with
      | .error _ => (.error .retrievalError, st)
      | .ok chunks =>
        let text_with_context := augmentText "\n\n[Context: ".data user_text chunks
        match memoriChat env.sarvam env.llama env.memori_storage_ok
            user_id session_id text_with_context lang st.memori_messages with
        | (.error e, mem') => (.error (.modelError e), { st with memori_messages := mem' })
        | (.ok (result, _), mem') =>
          let st := { st with memori_messages := mem' }
          match env.synthesize result.reply lang with
          | .error _ => (.error .ttsError, st)
          | .ok audio_bytes =>
            let st := recordTurn env session_id user_text result.reply lang
              result.model_used st
            (.ok ⟨user_text, result.reply, lang, result.model_used, session_id,
              "wav", audio_bytes⟩, st)

/-- `TranslationRequest` from `routes_translate.py`. -/
structure TranslationRequest where
  text : List Char
  source_lang : String
  target_lang : String
  tts : Bool
deriving DecidableEq, Repr

/-- `TranslationResponse` from `routes_translate.py`. -/
structure TranslationResponse where
  input_text : List Char
  translated_text : List Char
  source_lang : String
  target_lang : String
  audio_base64 : Option (List Nat)
deriving DecidableEq, Repr

/-- The errors of the translation endpoint. -/
inductive TranslateError where
  | llmNotInitialized
  | translationFailed
deriving DecidableEq, Repr

/-- `translate_text` from `routes_translate.py`: a translation failure is an
HTTP 500; a TTS failure when `tts` was requested is swallowed and leaves
`audio_base64` null. -/
def translate_text (env : ChatEnv) (llm_initialized : Bool)
    (req : TranslationRequest) : Except TranslateError TranslationResponse :=
  if !llm_initialized then .error .llmNotInitialized
  else
    match llmTranslate env.sarvam env.llama req.text req.source_lang req.target_lang with
    | .error _ => .error .translationFailed
    | .ok translated =>
      let audio :=
        if req.tts then
          match env.synthesize translated req.target_lang with
          | .ok b => some b
          | .error _ => none
        else none
      .ok ⟨req.text, translated, req.source_lang, req.target_lang, audio⟩

end Drishti

namespace Drishti

/-- C4: the four routing rules, first match wins, plus the four concrete
evaluations listed in the spec's testable properties. -/
theorem choose_model_rules_and_examples :
    (∀ t l, choose_model t l =
      if t.length > 300 then "heavy"
      else if HEAVY_KEYWORDS.any (fun kw => containsSub (lowerL t) kw) then "heavy"
      else if INDIC_LANGS.contains l && t.length ≤ 300 then "light"
      else "heavy") ∧
    choose_model (List.replicate 400 'a') "en" = "heavy" ∧
    choose_model "Explain this step by step".data "en" = "heavy" ∧
    choose_model "नमस्ते".data "hi" = "light" ∧
    choose_model "Hello".data "en" = "heavy" := by
  refine ⟨fun t l => rfl, by decide, ?_, by decide, by decide⟩
  decide

/-! ### Test fixtures: a fully healthy environment and variations of it -/

/-- A Sarvam backend that always answers. -/
def sarvamOk : Backend := fun _ => .ok "sarvam reply".data

/-- A Llama backend that always answers. -/
def llamaOk : Backend := fun _ => .ok "llama reply".data

/-- An environment in which every collaborator succeeds. -/
def okEnv : ChatEnv where
  memori_initialized := true
  detect := fun _ => .ok "en"
  chunks_store := .ok []
  sarvam := sarvamOk
  llama := llamaOk
  memori_storage_ok := true
  transcribe := fun _ => .ok ("hello there".data, "en")
  synthesize := fun _ _ => .ok [0]
  new_session_id := "sess-new"
  now := 7

/-- Empty initial stores. -/
def st0 : AppState := ⟨[], [], []⟩

/-! ### Helper lemmas -/

/-- `choose_model` only ever answers `"light"` or `"heavy"`. -/
theorem choose_model_cases (t : List Char) (l : String) :
    choose_model t l = "light" ∨ choose_model t l = "heavy" := by
  simp only [choose_model]
  split_ifs <;> first
  | exact Or.inl rfl
  | exact Or.inr rfl

/-- `llmChat` written as one conditional. -/
theorem llmChat_eq (sarvam llama : Backend) (text : List Char) (lang : String)
    (context : List Char) :
    llmChat sarvam llama text lang context =
      if choose_model text lang == "light" then
        (sarvam (buildMessages text context)).map (fun reply => ⟨reply, "sarvam-1"⟩)
      else
        (llama (buildMessages text context)).map (fun reply => ⟨reply, "llama-3.1-8b"⟩) :=
  rfl

/-- A successful `llmChat` reports the backend chosen by the router. -/
theorem llmChat_ok_model_used (sarvam llama : Backend) (text : List Char)
    (lang : String) (context : List Char) (r : ChatResult)
    (h : llmChat sarvam llama text lang context = .ok r) :
    r.model_used =
      if choose_model text lang == "light" then "sarvam-1" else "llama-3.1-8b" := by
  rw [llmChat_eq] at h
  by_cases hc : (choose_model text lang == "light") = true
  · rw [if_pos hc] at h
    rw [if_pos hc]
    cases hs : sarvam (buildMessages text context) <;> rw [hs] at h <;>
      simp [Except.map] at h
    simp [← h]
  · rw [if_neg hc] at h
    rw [if_neg hc]
    cases hs : llama (buildMessages text context) <;> rw [hs] at h <;>
      simp [Except.map] at h
    simp [← h]

/-- The session get-or-create step touches only the sessions store. -/
theorem getOrCreateSession_stores (env : ChatEnv) (uid : String)
    (sid : Option String) (text : List Char) (st : AppState) :
    ((getOrCreateSession env uid sid text st).2).messages = st.messages ∧
    ((getOrCreateSession env uid sid text st).2).memori_messages = st.memori_messages := by
  cases sid <;> exact ⟨rfl, rfl⟩

/-! ### C8: the invoked backend is exactly the routed one, with no fallback -/

/-- C8: when the router picks light, the answer is independent of the heavy
backend (and symmetrically), a successful reply reports the chosen backend
in `model_used`, and a gateway error is exactly the chosen backend's error —
no code path consults the other backend. -/
theorem llm_gateway_no_fallback :
    ∀ (sarvam sarvam' llama llama' : Backend) (text : List Char) (lang : String)
      (context : List Char),
      (choose_model text lang = "light" →
        llmChat sarvam llama text lang context = llmChat sarvam llama' text lang context ∧
        ∀ r, llmChat sarvam llama text lang context = .ok r → r.model_used = "sarvam-1") ∧
      (choose_model text lang = "heavy" →
        llmChat sarvam llama text lang context = llmChat sarvam' llama text lang context ∧
        ∀ r, llmChat sarvam llama text lang context = .ok r → r.model_used = "llama-3.1-8b") ∧
      (∀ e, llmChat sarvam llama text lang context = .error e →
        (choose_model text lang = "light" ∧ sarvam (buildMessages text context) = .error e) ∨
        (choose_model text lang = "heavy" ∧ llama (buildMessages text context) = .error e)) := by
  intro sarvam sarvam' llama llama' text lang context
  refine ⟨fun hc => ?_, fun hc => ?_, fun e he => ?_⟩
  · constructor
    · rw [llmChat_eq, llmChat_eq, hc]
      rfl
    · intro r hr
      have := llmChat_ok_model_used sarvam llama text lang context r hr
      rw [hc] at this
      simpa using this
  · constructor
    · rw [llmChat_eq, llmChat_eq, hc]
      rfl
    · intro r hr
      have := llmChat_ok_model_used sarvam llama text lang context r hr
      rw [hc] at this
      simpa using this
  · rcases choose_model_cases text lang with hc | hc
    · left
      refine ⟨hc, ?_⟩
      rw [llmChat_eq, hc] at he
      simp only [beq_self_eq_true, if_true] at he
      cases hs : sarvam (buildMessages text context) <;> rw [hs] at he <;>
        simp [Except.map] at he
      simp [he]
    · right
      refine ⟨hc, ?_⟩
      rw [llmChat_eq, hc] at he
      simp only [show (("heavy" : String) == "light") = false from rfl,
        Bool.false_eq_true, if_false] at he
      cases hs : llama (buildMessages text context) <;> rw [hs] at he <;>
        simp [Except.map] at he
      simp [he]

/-- Witness for C8 at a concrete short Hindi utterance (routed light): the
reply is independent of the heavy backend and reports `sarvam-1`. -/
theorem llm_gateway_no_fallback_witness :
    llmChat sarvamOk llamaOk "नमस्ते".data "hi" [] =
      llmChat sarvamOk (fun _ => .error "down") "नमस्ते".data "hi" [] ∧
    ∀ r, llmChat sarvamOk llamaOk "नमस्ते".data "hi" [] = .ok r →
      r.model_used = "sarvam-1" :=
  (llm_gateway_no_fallback sarvamOk sarvamOk llamaOk (fun _ => .error "down")
    "नमस्ते".data "hi" []).1 (by decide)

/-! ### C9: chunk indices of one ingested document -/

/-- C9: the chunk batch built for one ingested document carries
`chunk_index` values exactly `0, 1, 2, …` (hence unique within the document
and strictly increasing from 0), and every record of the batch belongs to
that document. -/
theorem chunk_indices_range :
    ∀ (doc uid : String) (chunks : List (List Char)) (now : Nat),
      ((chunk_records doc uid chunks now).map (fun r => r.chunk_index)) =
        List.range chunks.length ∧
      ((chunk_records doc uid chunks now).map (fun r => r.chunk_index)).Nodup ∧
      List.Chain' (· < ·) ((chunk_records doc uid chunks now).map (fun r => r.chunk_index)) ∧
      (chunk_records doc uid chunks now).map (fun r => r.document_id) =
        List.replicate chunks.length doc := by
  intro doc uid chunks now
  have hrange : ((chunk_records doc uid chunks now).map (fun r => r.chunk_index)) =
      List.range chunks.length := by
    simp [chunk_records, List.map_map, Function.comp_def]
  refine ⟨hrange, ?_, ?_, ?_⟩
  · rw [hrange]; exact List.nodup_range chunks.length
  · rw [hrange]
    exact (List.pairwise_lt_range chunks.length).chain'
  · simp [chunk_records, List.map_map, Function.comp_def, List.eq_replicate_iff]

/-! ### C10: automatic language detection on the text route -/

/-- `chatTextResolved` never reads the request's raw `lang` field (the
resolved language is passed separately). -/
theorem chatTextResolved_lang_irrel (env : ChatEnv) (uid : String)
    (sid : Option String) (text : List Char) (a b lang : String) (st : AppState) :
    chatTextResolved env ⟨uid, sid, text, a⟩ lang st =
      chatTextResolved env ⟨uid, sid, text, b⟩ lang st := rfl

/-- C10: with `lang = "auto"`, the turn runs exactly as if the caller had
sent the detected language; when detection raises, exactly as if the caller
had sent `"en"`. In both cases the turn proceeds normally. -/
theorem auto_language_detection :
    ∀ (env : ChatEnv) (req : TextChatRequest) (st : AppState),
      req.lang = "auto" →
      ((∀ l, env.detect req.text = .ok l → l ≠ "auto" →
          chat_text env req st = chat_text env { req with lang := l } st) ∧
       (env.detect req.text = .error () →
          chat_text env req st = chat_text env { req with lang := "en" } st)) := by
  intro env req st hauto
  obtain ⟨uid, sid, text, lang⟩ := req
  simp only at hauto
  subst hauto
  constructor
  · intro l hok hne
    have h1 : resolveLang env.detect text "auto" = l := by simp [resolveLang, hok]
    have h2 : resolveLang env.detect text l = l := by simp [resolveLang, hne]
    show chatTextResolved env ⟨uid, sid, text, "auto"⟩ (resolveLang env.detect text "auto") st =
      chatTextResolved env ⟨uid, sid, text, l⟩ (resolveLang env.detect text l) st
    rw [h1, h2]
    exact chatTextResolved_lang_irrel env uid sid text "auto" l l st
  · intro herr
    have h1 : resolveLang env.detect text "auto" = "en" := by simp [resolveLang, herr]
    have h2 : resolveLang env.detect text "en" = "en" := by simp [resolveLang]
    show chatTextResolved env ⟨uid, sid, text, "auto"⟩ (resolveLang env.detect text "auto") st =
      chatTextResolved env ⟨uid, sid, text, "en"⟩ (resolveLang env.detect text "en") st
    rw [h1, h2]
    exact chatTextResolved_lang_irrel env uid sid text "auto" "en" "en" st

/-- An environment whose language detector answers `"hi"`. -/
def detectHiEnv : ChatEnv := { okEnv with detect := fun _ => .ok "hi" }

/-- An environment whose language detector raises. -/
def detectFailEnv : ChatEnv := { okEnv with detect := fun _ => .error () }

/-- An `"auto"`-language request. -/
def autoReq : TextChatRequest := ⟨"u", some "s", "नमस्ते".data, "auto"⟩

/-- Witness for C10 at concrete requests: detection succeeding with `"hi"`
and detection raising. -/
theorem auto_language_detection_witness :
    chat_text detectHiEnv autoReq st0 =
      chat_text detectHiEnv { autoReq with lang := "hi" } st0 ∧
    chat_text detectFailEnv autoReq st0 =
      chat_text detectFailEnv { autoReq with lang := "en" } st0 :=
  ⟨(auto_language_detection detectHiEnv autoReq st0 rfl).1 "hi" rfl (by decide),
   (auto_language_detection detectFailEnv autoReq st0 rfl).2 rfl⟩

/-! ### C3: a retrieval failure aborts the turn -/

/-- C3 (amended): when chunk retrieval raises, the text turn aborts with the
retrieval error and records no messages — it does not proceed with empty
context. -/
theorem retrieval_failure_aborts :
    ∀ (env : ChatEnv) (req : TextChatRequest) (st : AppState),
      env.memori_initialized = true →
      retrieveChunks env req.user_id req.text = .error () →
      (chat_text env req st).fst = .error .retrievalError ∧
      (chat_text env req st).snd.messages = st.messages ∧
      (chat_text env req st).snd.memori_messages = st.memori_messages := by
  intro env req st hInit hRetr
  rcases hgs : getOrCreateSession env req.user_id req.session_id req.text st with ⟨sid', st'⟩
  have hmsg := (getOrCreateSession_stores env req.user_id req.session_id req.text st).1
  have hmem := (getOrCreateSession_stores env req.user_id req.session_id req.text st).2
  rw [hgs] at hmsg hmem
  have hchat : chat_text env req st = (.error .retrievalError, st') := by
    unfold chat_text chatTextResolved
    rw [hInit]
    simp only [Bool.not_true, Bool.false_eq_true, if_false, hgs, hRetr]
  rw [hchat]
  exact ⟨rfl, hmsg, hmem⟩

/-- An environment whose chunk store is unreachable. -/
def failStoreEnv : ChatEnv := { okEnv with chunks_store := .error () }

/-- Counterexample to C3 as stated: with the chunk store unreachable and
every other collaborator healthy, the turn does not produce a reply — it
aborts with the retrieval error. -/
theorem retrieval_failure_cex :
    (chat_text failStoreEnv ⟨"u", some "s", "Hello there friend".data, "en"⟩ st0).fst =
      .error .retrievalError := rfl

/-- Witness for the amended C3 at a concrete request. -/
theorem retrieval_failure_aborts_witness :
    (chat_text failStoreEnv ⟨"v", some "s2", "Tell me something".data, "en"⟩ st0).fst =
      .error .retrievalError ∧
    (chat_text failStoreEnv ⟨"v", some "s2", "Tell me something".data, "en"⟩ st0).snd.messages =
      st0.messages ∧
    (chat_text failStoreEnv ⟨"v", some "s2", "Tell me something".data, "en"⟩ st0).snd.memori_messages =
      st0.memori_messages :=
  retrieval_failure_aborts failStoreEnv ⟨"v", some "s2", "Tell me something".data, "en"⟩ st0
    rfl rfl

/-! ### C7: a gateway failure writes no history -/

/-- `memoriChat` propagates an LLM error and stores nothing. -/
theorem memoriChat_error (sarvam llama : Backend) (storage_ok : Bool)
    (uid sid : String) (text : List Char) (lang : String)
    (mem : List MemoriRecord) (e : String)
    (h : llmChat sarvam llama text lang = .error e) :
    memoriChat sarvam llama storage_ok uid sid text lang mem = (.error e, mem) := by
  unfold memoriChat
  rw [h]

/-- When both backends are down, `llmChat` fails whatever the routing. -/
theorem llmChat_both_down (env : ChatEnv) (text : List Char) (lang : String)
    (e : String) (hS : ∀ m, env.sarvam m = .error e)
    (hL : ∀ m, env.llama m = .error e) :
    llmChat env.sarvam env.llama text lang = .error e := by
  rw [llmChat_eq]
  split_ifs <;> simp [hS, hL, Except.map]

/-- C7: if the model gateway fails (both backends down, so the chosen one
fails whatever the routing), the text turn aborts with an error and writes
zero message records — neither to the app's messages collection nor to
Memori's. -/
theorem model_failure_writes_nothing :
    ∀ (env : ChatEnv) (req : TextChatRequest) (st : AppState) (e : String),
      (∀ m, env.sarvam m = .error e) →
      (∀ m, env.llama m = .error e) →
      (∃ err, (chat_text env req st).fst = .error err) ∧
      (chat_text env req st).snd.messages = st.messages ∧
      (chat_text env req st).snd.memori_messages = st.memori_messages := by
  intro env req st e hS hL
  cases hInit : env.memori_initialized
  · have hchat : chat_text env req st = (.error .memoriNotInitialized, st) := by
      unfold chat_text chatTextResolved
      rw [hInit]
      rfl
    rw [hchat]
    exact ⟨⟨_, rfl⟩, rfl, rfl⟩
  · rcases hgs : getOrCreateSession env req.user_id req.session_id req.text st with ⟨sid', st'⟩
    have hmsg := (getOrCreateSession_stores env req.user_id req.session_id req.text st).1
    have hmem := (getOrCreateSession_stores env req.user_id req.session_id req.text st).2
    rw [hgs] at hmsg hmem
    cases hr : retrieveChunks env req.user_id req.text with
    | error u =>
      cases u
      have hchat : chat_text env req st = (.error .retrievalError, st') := by
        unfold chat_text chatTextResolved
        rw [hInit]
        simp only [Bool.not_true, Bool.false_eq_true, if_false, hgs, hr]
      rw [hchat]
      exact ⟨⟨_, rfl⟩, hmsg, hmem⟩
    | ok chunks =>
      have hllm := llmChat_both_down env
        (augmentText "\n\n[Context from documents: ".data req.text chunks)
        (resolveLang env.detect req.text req.lang) e hS hL
      have hmemo := memoriChat_error env.sarvam env.llama env.memori_storage_ok
        req.user_id sid'
        (augmentText "\n\n[Context from documents: ".data req.text chunks)
        (resolveLang env.detect req.text req.lang) st'.memori_messages e hllm
      have hchat : chat_text env req st =
          (.error (.modelError e), { st' with memori_messages := st'.memori_messages }) := by
        unfold chat_text chatTextResolved
        rw [hInit]
        simp only [Bool.not_true, Bool.false_eq_true, if_false, hgs, hr, hmemo]
      rw [hchat]
      exact ⟨⟨_, rfl⟩, hmsg, hmem⟩

/-- An environment with both model backends down. -/
def bothDownEnv : ChatEnv :=
  { okEnv with sarvam := fun _ => .error "backend down",
               llama := fun _ => .error "backend down" }

/-- Witness for C7 at a concrete request against the dead-backends
environment. -/
theorem model_failure_writes_nothing_witness :
    (∃ err, (chat_text bothDownEnv ⟨"u", some "s", "Hello".data, "en"⟩ st0).fst = .error err) ∧
    (chat_text bothDownEnv ⟨"u", some "s", "Hello".data, "en"⟩ st0).snd.messages = st0.messages ∧
    (chat_text bothDownEnv ⟨"u", some "s", "Hello".data, "en"⟩ st0).snd.memori_messages =
      st0.memori_messages :=
  model_failure_writes_nothing bothDownEnv ⟨"u", some "s", "Hello".data, "en"⟩ st0
    "backend down" (fun _ => rfl) (fun _ => rfl)

/-! ### C1: which text the router sees -/

/-- `memoriChat` on a successful LLM call: the result is returned and the
interaction is stored best-effort. -/
theorem memoriChat_ok (sarvam llama : Backend) (storage_ok : Bool)
    (uid sid : String) (text : List Char) (lang : String)
    (mem : List MemoriRecord) (result : ChatResult)
    (h : llmChat sarvam llama text lang = .ok result) :
    memoriChat sarvam llama storage_ok uid sid text lang mem =
      (.ok (result, sid),
        if storage_ok then
          mem ++ [⟨uid, sid, text, result.reply, result.model_used⟩]
        else mem) := by
  unfold memoriChat
  rw [h]

/-- C1 (amended): the routing decision of a text turn is computed on the
context-augmented text — the user utterance with the bracketed document
context appended whenever retrieval returned chunks (the raw utterance only
when the joined context is empty) — so `model_used` reflects
`choose_model` applied to that augmented text, not to the raw utterance. -/
theorem routing_uses_augmented_text :
    ∀ (env : ChatEnv) (req : TextChatRequest) (st : AppState)
      (chunks : List (List Char)) (resp : TextChatResponse),
      env.memori_initialized = true →
      retrieveChunks env req.user_id req.text = .ok chunks →
      (chat_text env req st).fst = .ok resp →
      resp.model_used =
        if choose_model (augmentText "\n\n[Context from documents: ".data req.text chunks)
            (resolveLang env.detect req.text req.lang) == "light"
        then "sarvam-1" else "llama-3.1-8b" := by
  intro env req st chunks resp hInit hRetr hOk
  rcases hgs : getOrCreateSession env req.user_id req.session_id req.text st with ⟨sid', st'⟩
  cases hllm : llmChat env.sarvam env.llama
      (augmentText "\n\n[Context from documents: ".data req.text chunks)
      (resolveLang env.detect req.text req.lang) with
  | error e =>
    have hmemo := memoriChat_error env.sarvam env.llama env.memori_storage_ok
      req.user_id sid' (augmentText "\n\n[Context from documents: ".data req.text chunks)
      (resolveLang env.detect req.text req.lang) st'.memori_messages e hllm
    have hchat : (chat_text env req st).fst = .error (.modelError e) := by
      unfold chat_text chatTextResolved
      rw [hInit]
      simp only [Bool.not_true, Bool.false_eq_true, if_false, hgs, hRetr, hmemo]
    rw [hchat] at hOk
    exact absurd hOk (by simp)
  | ok result =>
    have hmemo := memoriChat_ok env.sarvam env.llama env.memori_storage_ok
      req.user_id sid' (augmentText "\n\n[Context from documents: ".data req.text chunks)
      (resolveLang env.detect req.text req.lang) st'.memori_messages result hllm
    have hchat : (chat_text env req st).fst =
        .ok ⟨req.text, result.reply, resolveLang env.detect req.text req.lang,
          result.model_used, sid'⟩ := by
      unfold chat_text chatTextResolved
      rw [hInit]
      simp only [Bool.not_true, Bool.false_eq_true, if_false, hgs, hRetr, hmemo]
    rw [hchat] at hOk
    have hresp := Except.ok.inj hOk
    rw [← hresp]
    exact llmChat_ok_model_used env.sarvam env.llama
      (augmentText "\n\n[Context from documents: ".data req.text chunks)
      (resolveLang env.detect req.text req.lang) [] result hllm

/-- A store holding one chunk of user `"u"` whose text mentions `code`. -/
def contextStore : List ChunkRecord := [⟨"doc1", "u", "nice code नमस्ते".data, 0, 0⟩]

/-- A healthy environment over `contextStore`. -/
def contextEnv : ChatEnv := { okEnv with chunks_store := .ok contextStore }

/-- A short Hindi request that the router, on the raw utterance, sends to
the light model. -/
def hindiReq : TextChatRequest := ⟨"u", some "s", "नमस्ते".data, "hi"⟩

/-- Counterexample to C1 as stated: on the raw utterance the router picks
light, but the turn (with non-empty retrieved context, whose text contains
the keyword `code`) answers with the heavy backend — the router was invoked
on the context-augmented text, not on what the user said. -/
theorem routing_sees_context_cex :
    choose_model hindiReq.text hindiReq.lang = "light" ∧
    (chat_text contextEnv hindiReq st0).fst.map (fun r => r.model_used) =
      .ok "llama-3.1-8b" :=
  ⟨by decide, rfl⟩

/-- Witness for the amended C1 at the same concrete turn. -/
theorem routing_uses_augmented_text_witness :
    (⟨"नमस्ते".data, "llama reply".data, "hi", "llama-3.1-8b", "s"⟩ :
        TextChatResponse).model_used =
      if choose_model
          (augmentText "\n\n[Context from documents: ".data hindiReq.text
            ["nice code नमस्ते".data])
          (resolveLang contextEnv.detect hindiReq.text hindiReq.lang) == "light"
      then "sarvam-1" else "llama-3.1-8b" :=
  routing_uses_augmented_text contextEnv hindiReq st0 ["nice code नमस्ते".data]
    ⟨"नमस्ते".data, "llama reply".data, "hi", "llama-3.1-8b", "s"⟩ rfl rfl rfl

/-! ### C2: a TTS failure on the audio chat route -/

/-- C2 (amended): on the audio chat route a TTS failure aborts the turn
with the TTS error (and the turn's messages are never recorded); the
TTS-failure-is-non-fatal behaviour holds only on the translation route,
which still answers with the translated text and a null audio payload. -/
theorem tts_failure_behavior :
    (∀ (env : ChatEnv) (user_id : String) (session_id : Option String)
        (audio : List Nat) (st : AppState) (ut : List Char) (lg : String)
        (chunks : List (List Char)) (result : ChatResult),
        env.memori_initialized = true →
        env.transcribe audio = .ok (ut, lg) →
        retrieveChunks env user_id ut = .ok chunks →
        llmChat env.sarvam env.llama (augmentText "\n\n[Context: ".data ut chunks) lg =
          .ok result →
        env.synthesize result.reply lg = .error () →
        (chat_audio env user_id session_id audio st).fst = .error .ttsError ∧
        (chat_audio env user_id session_id audio st).snd.messages = st.messages) ∧
    (∀ (env : ChatEnv) (req : TranslationRequest) (t : List Char),
        req.tts = true →
        llmTranslate env.sarvam env.llama req.text req.source_lang req.target_lang = .ok t →
        env.synthesize t req.target_lang = .error () →
        translate_text env true req =
          .ok ⟨req.text, t, req.source_lang, req.target_lang, none⟩) := by
  constructor
  · intro env user_id session_id audio st ut lg chunks result hInit hT hr hllm hsyn
    rcases hgs : getOrCreateSession env user_id session_id ut st with ⟨sid', st'⟩
    have hmsg := (getOrCreateSession_stores env user_id session_id ut st).1
    rw [hgs] at hmsg
    have hmemo := memoriChat_ok env.sarvam env.llama env.memori_storage_ok
      user_id sid' (augmentText "\n\n[Context: ".data ut chunks) lg
      st'.memori_messages result hllm
    have hchat : chat_audio env user_id session_id audio st =
        (.error .ttsError,
          { st' with memori_messages :=
              if env.memori_storage_ok then
                st'.memori_messages ++
                  [⟨user_id, sid', augmentText "\n\n[Context: ".data ut chunks,
                    result.reply, result.model_used⟩]
              else st'.memori_messages }) := by
      unfold chat_audio
      rw [hInit]
      simp only [Bool.not_true, Bool.false_eq_true, if_false, hT, hgs, hr, hmemo, hsyn]
    rw [hchat]
    exact ⟨rfl, hmsg⟩
  · intro env req t htts htr hsyn
    unfold translate_text
    rw [htr, htts]
    simp [hsyn]

/-- An otherwise healthy environment whose TTS stage always fails. -/
def ttsFailEnv : ChatEnv := { okEnv with synthesize := fun _ _ => .error () }

/-- Counterexample to C2 as stated: STT and generation succeed, TTS fails,
and the audio turn does not complete with a text-only response — it aborts
with the TTS error. -/
theorem tts_failure_cex :
    llmChat ttsFailEnv.sarvam ttsFailEnv.llama "hello there".data "en" =
      .ok ⟨"llama reply".data, "llama-3.1-8b"⟩ ∧
    (chat_audio ttsFailEnv "u" (some "s") [0] st0).fst = .error .ttsError :=
  ⟨rfl, rfl⟩

/-- Witness for the amended C2: the audio route aborts at a concrete turn,
while the translation route degrades to a text-only response. -/
theorem tts_failure_behavior_witness :
    ((chat_audio ttsFailEnv "u" (some "s") [0] st0).fst = .error .ttsError ∧
      (chat_audio ttsFailEnv "u" (some "s") [0] st0).snd.messages = st0.messages) ∧
    translate_text ttsFailEnv true ⟨"hello".data, "en", "fr", true⟩ =
      .ok ⟨"hello".data, "llama reply".data, "en", "fr", none⟩ :=
  ⟨tts_failure_behavior.1 ttsFailEnv "u" (some "s") [0] st0 "hello there".data "en"
      [] ⟨"llama reply".data, "llama-3.1-8b"⟩ rfl rfl rfl rfl rfl,
   tts_failure_behavior.2 ttsFailEnv ⟨"hello".data, "en", "fr", true⟩
      "llama reply".data rfl rfl rfl⟩

/-! ### C6: the keyword retriever -/

/-- C6 (amended): a successful retrieval returns at most `limit` chunks, all
from records of the requested owner; with no kept keyword it answers `[]`
whatever the store holds; with keywords, every returned chunk's text matches
the `|`-joined regex of the first 5 keywords case-insensitively — keyword
characters are interpreted as regex syntax, which coincides with substring
containment only for metacharacter-free keywords. -/
theorem retriever_contract :
    ∀ (store : List ChunkRecord) (uid : String) (query : List Char) (limit : Nat)
      (out : List (List Char)),
      get_relevant_chunks store uid query limit = some out →
      out.length ≤ limit ∧
      (∀ t ∈ out, ∃ ch ∈ store, ch.user_id = uid ∧ ch.text = t) ∧
      (queryKeywords query = [] →
        out = [] ∧ ∀ store', get_relevant_chunks store' uid query limit = some []) ∧
      (queryKeywords query ≠ [] →
        ∃ r, queryRegex query = some r ∧ ∀ t ∈ out, r.rsearch (lowerL t) = true) := by
  intro store uid query limit out h
  unfold get_relevant_chunks at h
  by_cases hk : queryKeywords query = []
  · rw [if_pos hk] at h
    have hout : out = [] := by
      cases h
      rfl
    subst hout
    refine ⟨Nat.zero_le _, by simp, fun _ => ⟨rfl, fun store' => ?_⟩, fun hne => absurd hk hne⟩
    unfold get_relevant_chunks
    rw [if_pos hk]
  · rw [if_neg hk] at h
    cases hq : queryRegex query with
    | none =>
      rw [hq] at h
      cases h
    | some r =>
      rw [hq] at h
      have hout : out =
          ((store.filter
            (fun ch => ch.user_id == uid && r.rsearch (lowerL ch.text))).take limit).map
              (fun ch => ch.text) := by
        cases h
        rfl
      have hmem : ∀ t ∈ out, ∃ ch ∈ store, (ch.user_id == uid && r.rsearch (lowerL ch.text)) =
          true ∧ ch.text = t := by
        intro t ht
        rw [hout] at ht
        obtain ⟨ch, hch, htext⟩ := List.mem_map.mp ht
        have hch' := List.mem_of_mem_take hch
        obtain ⟨hchs, hpred⟩ := List.mem_filter.mp hch'
        exact ⟨ch, hchs, hpred, htext⟩
      refine ⟨?_, ?_, fun hk' => absurd hk' hk, fun _ => ⟨r, rfl, ?_⟩⟩
      · rw [hout, List.length_map]
        exact List.length_take_le limit _
      · intro t ht
        obtain ⟨ch, hchs, hpred, htext⟩ := hmem t ht
        have hsplit := hpred
        simp only [Bool.and_eq_true] at hsplit
        exact ⟨ch, hchs, by simpa using hsplit.1, htext⟩
      · intro t ht
        obtain ⟨ch, hchs, hpred, htext⟩ := hmem t ht
        have hsplit := hpred
        simp only [Bool.and_eq_true] at hsplit
        rw [← htext]
        exact hsplit.2

/-- A store holding one chunk `"cos"` of user `"u"`. -/
def cosStore : List ChunkRecord := [⟨"doc2", "u", "cos".data, 0, 0⟩]

/-- Counterexample to C6 as stated: the query `cost?` keeps the single
keyword `cost?`, and retrieval returns the chunk `cos` even though `cost?`
is not a case-insensitive substring of it — the `?` was interpreted as regex
syntax by the store query, not matched literally. -/
theorem retriever_regex_cex :
    queryKeywords "cost?".data = ["cost?".data] ∧
    get_relevant_chunks cosStore "u" "cost?".data 5 = some ["cos".data] ∧
    containsSub (lowerL "cos".data) (lowerL "cost?".data) = false :=
  ⟨rfl, rfl, rfl⟩

/-- Witness for the amended C6 at the same concrete store and query. -/
theorem retriever_contract_witness :
    get_relevant_chunks cosStore "u" "cost?".data 5 = some ["cos".data] ∧
    (["cos".data].length ≤ 5 ∧
     (∀ t ∈ ["cos".data], ∃ ch ∈ cosStore, ch.user_id = "u" ∧ ch.text = t) ∧
     (queryKeywords "cost?".data = [] →
        ["cos".data] = [] ∧
        ∀ store', get_relevant_chunks store' "u" "cost?".data 5 = some []) ∧
     (queryKeywords "cost?".data ≠ [] →
        ∃ r, queryRegex "cost?".data = some r ∧
          ∀ t ∈ ["cos".data], r.rsearch (lowerL t) = true)) :=
  ⟨rfl, retriever_contract cosStore "u" "cost?".data 5 ["cos".data] rfl⟩

end Drishti

namespace Drishti

/-! ### C5: totality of the chunker -/

/-- On 15 `a`s with `chunk_size = 10` and `overlap = 10`, every iteration of
the chunker's loop leaves the cursor at 0: no amount of fuel finishes. -/
theorem chunkLoop_stuck (fuel : Nat) :
    ∀ acc, chunkLoop (List.replicate 15 'a') 10 10 fuel 0 acc = none := by
  induction fuel with
  | zero => intro acc; rfl
  | succ n ih =>
    intro acc
    have hstep : chunkLoop (List.replicate 15 'a') 10 10 (n + 1) 0 acc =
        chunkLoop (List.replicate 15 'a') 10 10 n 0 (acc ++ [List.replicate 10 'a']) := rfl
    rw [hstep]
    exact ih _

/-- Counterexample to C5 as stated: with `chunkSize = 10 > 0` and
`overlap = 10 ≥ 0`, on a 15-character text without sentence boundaries the
loop never terminates (the cursor recomputes `end - overlap = start` forever),
so `chunk_text` is not total over all `overlap ≥ 0`. -/
theorem chunker_nontermination_cex :
    chunk_text (List.replicate 15 'a') 10 10 = none ∧
    ¬ ∃ fuel, (chunkLoop (List.replicate 15 'a') 10 10 fuel 0 []).isSome = true := by
  constructor
  · show (if List.replicate 15 'a' = ([] : List Char) then some [] else _) = none
    rw [if_neg (by decide)]
    exact chunkLoop_stuck _ []
  · rintro ⟨fuel, hf⟩
    rw [chunkLoop_stuck fuel []] at hf
    simp at hf

/-- The boundary search either keeps the raw window end or moves it past the
midpoint plus delimiter: `findBreak` returns `e0` or at least
`start + chunkSize / 2 + 3`, for delimiter lists whose entries all have
length 2 (as `boundary_chars` does). -/
theorem findBreak_lower (text : List Char) (cs : Nat) (start e0 : Int) :
    ∀ (l : List (List Char)), (∀ d ∈ l, d.length = 2) →
      findBreak text cs start e0 l = e0 ∨
      findBreak text cs start e0 l ≥ start + ((cs / 2 : Nat) : Int) + 3 := by
  intro l
  induction l with
  | nil => intro _; exact Or.inl rfl
  | cons d rest ih =>
    intro hlen
    show (if _ > _ then _ else findBreak text cs start e0 rest) = e0 ∨
      (if _ > _ then _ else findBreak text cs start e0 rest) ≥ _
    split
    next hp =>
      right
      have hd : (d.length : Int) = 2 := by
        have := hlen d (List.mem_cons_self d rest)
        omega
      rw [hd]
      omega
    next =>
      exact ih (fun d' hd' => hlen d' (List.mem_cons_of_mem d hd'))

/-- The chunker's loop finishes whenever the cursor gains at least one
position per round: with `overlap < chunkSize` and
`overlap < chunkSize / 2 + 3`, fuel exceeding the remaining length always
suffices. -/
theorem chunkLoop_terminates (text : List Char) (cs ov : Nat)
    (h2 : ov < cs) (h3 : ov < cs / 2 + 3) :
    ∀ (fuel : Nat) (start : Int) (acc : List (List Char)),
      0 ≤ start → (text.length : Int) - start < fuel →
      (chunkLoop text cs ov fuel start acc).isSome = true := by
  intro fuel
  induction fuel with
  | zero =>
    intro start acc h0 hf
    have hge : ¬ start < (text.length : Int) := by omega
    show (if start < (text.length : Int) then none else some acc).isSome = true
    rw [if_neg hge]
    rfl
  | succ n ih =>
    intro start acc h0 hf
    by_cases hlt : start < (text.length : Int)
    · have hstep : chunkLoop text cs ov (n + 1) start acc =
          (let e0 : Int := start + (cs : Int)
           let e : Int :=
             if e0 < (text.length : Int) then findBreak text cs start e0 boundary_chars
             else e0
           let chunk := pyStrip (pySlice text start e)
           let acc' := if chunk ≠ [] then acc ++ [chunk] else acc
           let start' : Int :=
             if e < (text.length : Int) then e - (ov : Int) else (text.length : Int)
           chunkLoop text cs ov n start' acc') := by
        show (if start < (text.length : Int) then _ else some acc) = _
        rw [if_pos hlt]
      rw [hstep]
      dsimp only
      by_cases hE : start + (cs : Int) < (text.length : Int)
      · rw [if_pos hE]
        rcases findBreak_lower text cs start (start + (cs : Int)) boundary_chars
            (by decide) with hfb | hfb
        · by_cases hE2 : findBreak text cs start (start + (cs : Int)) boundary_chars <
              (text.length : Int)
          · rw [if_pos hE2]
            apply ih
            · omega
            · omega
          · rw [if_neg hE2]
            apply ih
            · positivity
            · omega
        · by_cases hE2 : findBreak text cs start (start + (cs : Int)) boundary_chars <
              (text.length : Int)
          · rw [if_pos hE2]
            apply ih
            · omega
            · omega
          · rw [if_neg hE2]
            apply ih
            · positivity
            · omega
      · rw [if_neg hE]
        have hE' : ¬ start + (cs : Int) < (text.length : Int) := hE
        rw [if_neg hE']
        apply ih
        · positivity
        · omega
    · show (if start < (text.length : Int) then _ else some acc).isSome = true
      rw [if_neg hlt]
      rfl

/-- C5 (amended): `chunk_text` terminates and returns a chunk list for every
text and every `chunkSize > 0` whenever `overlap < chunkSize` and
`overlap < chunkSize / 2 + 3` (which covers the source's call site,
`chunkSize = 1024`, `overlap = 128`); it is not total for arbitrary
`overlap ≥ 0`. -/
theorem chunk_text_total :
    ∀ (text : List Char) (cs ov : Nat), 0 < cs → ov < cs → ov < cs / 2 + 3 →
      (chunk_text text cs ov).isSome = true := by
  intro text cs ov _ h2 h3
  unfold chunk_text
  split
  · rfl
  · exact chunkLoop_terminates text cs ov h2 h3 (text.length + 1) 0 [] le_rfl (by omega)

/-- Witness for the amended C5 at the spec's own concrete example. -/
theorem chunk_text_total_witness :
    0 < 100 ∧ 10 < 100 ∧ 10 < 100 / 2 + 3 ∧
    (chunk_text "Short text".data 100 10).isSome = true :=
  ⟨by decide, by decide, by decide,
   chunk_text_total "Short text".data 100 10 (by decide) (by decide) (by decide)⟩

end Drishti
